import Mathlib

set_option linter.unreachableTactic false
set_option linter.unusedTactic false
set_option linter.unusedVariables false

/-!
Verification of the ops-Tooling repository scripts.

The Python sources under src/Git (gcl.py, gcl/gcl.py, gcl_old.py) and
src/Rclone (rclone.py) shell out to git and rclone.  We embed them
shallowly: every subprocess call is resolved through an explicit
environment (an oracle mapping the invoked command to its outcome), the
filesystem directory check is an environment predicate, and each Python
function becomes a Lean function that returns its result together with
the ordered list of subprocess invocations it performed.
-/

/-- Outcome of one `subprocess.run` call as observed by the Python code:
either the process completed with a return code, stdout and stderr, or it
timed out (`subprocess.TimeoutExpired`), or some other exception caught by
the `except Exception` clause was raised, carrying its message. -/
inductive SubprocessOutcome where
  | completed (returncode : Int) (stdout stderr : String)
  | timeout
  | exc (msg : String)
deriving DecidableEq

/-- Embedding of `run_git` (src/Git/gcl.py lines 72-83 and
src/Git/gcl/gcl.py lines 72-83; the two copies differ only in the default
timeout value, which does not affect the returned pair).  On completion it
returns `(returncode, stdout + stderr)`; on timeout `(1, "Git command
timed out")`; on any other caught exception `(1, str(e))`. -/
def run_git (o : SubprocessOutcome) : Int × String :=
  match o with
  | .completed rc out err => (rc, out ++ err)
  | .timeout => (1, "Git command timed out")
  | .exc msg => (1, msg)

/-- Environment for the git scripts: `isDir` models `Path(p).is_dir()`,
and `outcome` gives the subprocess outcome of running git with the given
working directory (the `-C` argument) and argument list. -/
structure GitEnv where
  isDir : String → Bool
  outcome : String → List String → SubprocessOutcome

/-- One git invocation: the directory passed to `git -C` and the
remaining argument list. -/
abbrev GitCall := String × List String

/-- `run_git` performed inside an environment. -/
def runGitIn (env : GitEnv) (dir : String) (args : List String) : Int × String :=
  run_git (env.outcome dir args)

/-- Embedding of the Python line counting idiom
`len(out.strip().split(chr(10))) if out.strip() else 0` used to count
unpushed/unpulled commits. -/
def countLines (s : String) : Nat :=
  if s.trim = "" then 0 else (s.trim.splitOn "\n").length

def diffIndexArgs : List String := ["diff-index", "--quiet", "HEAD", "--"]

def revParseUpstreamArgs : List String := ["rev-parse", "@{u}"]

def logUnpushedArgs : List String := ["log", "@{u}..", "--oneline"]

def fetchQuietArgs : List String := ["fetch", "--quiet"]

def logUnpulledArgs : List String := ["log", "HEAD..@{u}", "--oneline"]

namespace Gcl

/-- Embedding of `get_repo_local_status` (src/Git/gcl.py lines 85-106,
identical in src/Git/gcl/gcl.py lines 85-106).  Returns the status string
together with the list of git invocations performed. -/
def get_repo_local_status (env : GitEnv) (repo_dir : String) :
    String × List GitCall :=
  if env.isDir repo_dir = false then ("Not Cloned", [])
  else
    let r1 := runGitIn env repo_dir diffIndexArgs
    if r1.1 ≠ 0 then ("Uncommitted", [(repo_dir, diffIndexArgs)])
    else
      let r2 := runGitIn env repo_dir revParseUpstreamArgs
      if r2.1 ≠ 0 then
        ("No Remote", [(repo_dir, diffIndexArgs), (repo_dir, revParseUpstreamArgs)])
      else
        let r3 := runGitIn env repo_dir logUnpushedArgs
        let unpushed := countLines r3.2
        if unpushed > 0 then
          (toString unpushed ++ " Unpushed",
            [(repo_dir, diffIndexArgs), (repo_dir, revParseUpstreamArgs),
              (repo_dir, logUnpushedArgs)])
        else
          ("OK",
            [(repo_dir, diffIndexArgs), (repo_dir, revParseUpstreamArgs),
              (repo_dir, logUnpushedArgs)])

/-- Embedding of `get_repo_remote_status` (src/Git/gcl.py lines 108-129).
Returns the status string together with the list of git invocations. -/
def get_repo_remote_status (env : GitEnv) (repo_dir : String) :
    String × List GitCall :=
  if env.isDir repo_dir = false then ("Not Cloned", [])
  else
    let r1 := runGitIn env repo_dir revParseUpstreamArgs
    if r1.1 ≠ 0 then ("No Remote", [(repo_dir, revParseUpstreamArgs)])
    else
      let r2 := runGitIn env repo_dir fetchQuietArgs
      if r2.1 ≠ 0 then
        ("Fetch Failed", [(repo_dir, revParseUpstreamArgs), (repo_dir, fetchQuietArgs)])
      else
        let r3 := runGitIn env repo_dir logUnpulledArgs
        let unpulled := countLines r3.2
        if unpulled > 0 then
          (toString unpulled ++ " To Pull",
            [(repo_dir, revParseUpstreamArgs), (repo_dir, fetchQuietArgs),
              (repo_dir, logUnpulledArgs)])
        else
          ("Up to Date",
            [(repo_dir, revParseUpstreamArgs), (repo_dir, fetchQuietArgs),
              (repo_dir, logUnpulledArgs)])

end Gcl

namespace GclV2

/-- Embedding of `get_repo_remote_status` from src/Git/gcl/gcl.py lines
108-130: identical to the src/Git/gcl.py version except that the fetch is
performed only when `do_fetch` is true (the Python default is true). -/
def get_repo_remote_status (env : GitEnv) (repo_dir : String)
    (do_fetch : Bool) : String × List GitCall :=
  if env.isDir repo_dir = false then ("Not Cloned", [])
  else
    let r1 := runGitIn env repo_dir revParseUpstreamArgs
    if r1.1 ≠ 0 then ("No Remote", [(repo_dir, revParseUpstreamArgs)])
    else
      let fetchCalls := if do_fetch then [(repo_dir, fetchQuietArgs)] else []
      if do_fetch ∧ (runGitIn env repo_dir fetchQuietArgs).1 ≠ 0 then
        ("Fetch Failed", (repo_dir, revParseUpstreamArgs) :: fetchCalls)
      else
        let r3 := runGitIn env repo_dir logUnpulledArgs
        let unpulled := countLines r3.2
        if unpulled > 0 then
          (toString unpulled ++ " To Pull",
            (repo_dir, revParseUpstreamArgs) :: fetchCalls ++ [(repo_dir, logUnpulledArgs)])
        else
          ("Up to Date",
            (repo_dir, revParseUpstreamArgs) :: fetchCalls ++ [(repo_dir, logUnpulledArgs)])

end GclV2

/-- A concrete environment in which no directory exists. -/
def envNoDir : GitEnv :=
  { isDir := fun _ => false, outcome := fun _ _ => .completed 0 "" "" }

/-- Claim C8: `run_git` is total.  For every subprocess outcome it
returns a pair of an integer return code and an output string; on a
completed process the pair is `(returncode, stdout ++ stderr)`, on
timeout it is `(1, "Git command timed out")`, and on any other caught
exception it is `(1, message)`. -/
theorem gcl_C8_run_git_total :
    (∀ rc out err, run_git (.completed rc out err) = (rc, out ++ err)) ∧
    run_git .timeout = (1, "Git command timed out") ∧
    (∀ msg, run_git (.exc msg) = (1, msg)) ∧
    (∀ o : SubprocessOutcome, ∃ rc s, run_git o = (rc, s)) := by
  refine ⟨fun _ _ _ => rfl, rfl, fun _ => rfl, fun o => ⟨(run_git o).1, (run_git o).2, rfl⟩⟩

/-- Claim C1: `get_repo_local_status` derives the local status by the
fixed sequence of checks: "Not Cloned" with no git invocation when the
directory is missing; otherwise "Uncommitted" when `git diff-index`
exits nonzero, else "No Remote" when `git rev-parse @\x7bu\x7d` exits
nonzero, else "n Unpushed" when the (stripped) `git log` output is
non-empty with n its number of lines, else "OK"; and these five shapes
are the only possible results. -/
theorem gcl_C1_local_status (env : GitEnv) (dir : String) :
    ((Gcl.get_repo_local_status env dir).1 = "Not Cloned" ∨
      (Gcl.get_repo_local_status env dir).1 = "Uncommitted" ∨
      (Gcl.get_repo_local_status env dir).1 = "No Remote" ∨
      (Gcl.get_repo_local_status env dir).1 = "OK" ∨
      ∃ n : Nat, 0 < n ∧ (Gcl.get_repo_local_status env dir).1 = toString n ++ " Unpushed") ∧
    (env.isDir dir = false → Gcl.get_repo_local_status env dir = ("Not Cloned", [])) ∧
    (env.isDir dir = true → (runGitIn env dir diffIndexArgs).1 ≠ 0 →
      Gcl.get_repo_local_status env dir = ("Uncommitted", [(dir, diffIndexArgs)])) ∧
    (env.isDir dir = true → (runGitIn env dir diffIndexArgs).1 = 0 →
      (runGitIn env dir revParseUpstreamArgs).1 ≠ 0 →
      (Gcl.get_repo_local_status env dir).1 = "No Remote") ∧
    (env.isDir dir = true → (runGitIn env dir diffIndexArgs).1 = 0 →
      (runGitIn env dir revParseUpstreamArgs).1 = 0 →
      0 < countLines (runGitIn env dir logUnpushedArgs).2 →
      (Gcl.get_repo_local_status env dir).1 =
        toString (countLines (runGitIn env dir logUnpushedArgs).2) ++ " Unpushed") ∧
    (env.isDir dir = true → (runGitIn env dir diffIndexArgs).1 = 0 →
      (runGitIn env dir revParseUpstreamArgs).1 = 0 →
      countLines (runGitIn env dir logUnpushedArgs).2 = 0 →
      (Gcl.get_repo_local_status env dir).1 = "OK") := by
  have hNot : env.isDir dir = false →
      Gcl.get_repo_local_status env dir = ("Not Cloned", []) := by
    intro h; simp [Gcl.get_repo_local_status, h]
  have hUnc : env.isDir dir = true → (runGitIn env dir diffIndexArgs).1 ≠ 0 →
      Gcl.get_repo_local_status env dir = ("Uncommitted", [(dir, diffIndexArgs)]) := by
    intro h h1; simp [Gcl.get_repo_local_status, h, h1]
  have hNR : env.isDir dir = true → (runGitIn env dir diffIndexArgs).1 = 0 →
      (runGitIn env dir revParseUpstreamArgs).1 ≠ 0 →
      (Gcl.get_repo_local_status env dir).1 = "No Remote" := by
    intro h h1 h2; simp [Gcl.get_repo_local_status, h, h1, h2]
  have hUP : env.isDir dir = true → (runGitIn env dir diffIndexArgs).1 = 0 →
      (runGitIn env dir revParseUpstreamArgs).1 = 0 →
      0 < countLines (runGitIn env dir logUnpushedArgs).2 →
      (Gcl.get_repo_local_status env dir).1 =
        toString (countLines (runGitIn env dir logUnpushedArgs).2) ++ " Unpushed" := by
    intro h h1 h2 h3; simp [Gcl.get_repo_local_status, h, h1, h2, h3]
  have hOK : env.isDir dir = true → (runGitIn env dir diffIndexArgs).1 = 0 →
      (runGitIn env dir revParseUpstreamArgs).1 = 0 →
      countLines (runGitIn env dir logUnpushedArgs).2 = 0 →
      (Gcl.get_repo_local_status env dir).1 = "OK" := by
    intro h h1 h2 h3; simp [Gcl.get_repo_local_status, h, h1, h2, h3]
  refine ⟨?_, hNot, hUnc, hNR, hUP, hOK⟩
  by_cases hd : env.isDir dir = false
  · exact Or.inl (by rw [hNot hd])
  · have hd' : env.isDir dir = true := by simpa using hd
    by_cases h1 : (runGitIn env dir diffIndexArgs).1 = 0
    · by_cases h2 : (runGitIn env dir revParseUpstreamArgs).1 = 0
      · by_cases h3 : countLines (runGitIn env dir logUnpushedArgs).2 = 0
        · exact Or.inr (Or.inr (Or.inr (Or.inl (hOK hd' h1 h2 h3))))
        · exact Or.inr (Or.inr (Or.inr (Or.inr
            ⟨_, Nat.pos_of_ne_zero h3, hUP hd' h1 h2 (Nat.pos_of_ne_zero h3)⟩)))
      · exact Or.inr (Or.inr (Or.inl (hNR hd' h1 h2)))
    · exact Or.inr (Or.inl (by rw [hUnc hd' h1]))

/-- Witness for claim C1 at a concrete environment with no directories. -/
theorem gcl_C1_local_status_witness :
    Gcl.get_repo_local_status envNoDir "repo" = ("Not Cloned", []) :=
  (gcl_C1_local_status envNoDir "repo").2.1 rfl

/-- If two strings end in different characters, an append ending in the
first cannot equal the second.  Used to separate the dynamically built
status strings from the literal ones. -/
theorem append_ne_of_getLast_ne (s t u : String) (c d : Char)
    (ht : t.data.getLast? = some c) (hu : u.data.getLast? = some d)
    (hcd : c ≠ d) : s ++ t ≠ u := by
  intro h
  have h2 : s.data ++ t.data = u.data := by
    have h3 := congrArg String.data h
    simpa [String.data_append] using h3
  have h4 : (s.data ++ t.data).getLast? = some d := by rw [h2, hu]
  rw [List.getLast?_append, ht] at h4
  simp [Option.or] at h4
  exact hcd h4

/-- Claim C4: `get_repo_remote_status` gates all work on the directory
check and the exit codes: "Not Cloned" with no git invocation when the
directory is missing, "No Remote" when rev-parse fails, "Fetch Failed"
exactly when the fetch invocation exits nonzero, "n To Pull" when the
log output is non-empty, and "Up to Date" otherwise; and the
src/Git/gcl/gcl.py variant with its default `do_fetch = true` agrees
with the src/Git/gcl.py version. -/
theorem gcl_C4_remote_status (env : GitEnv) (dir : String) :
    (env.isDir dir = false → Gcl.get_repo_remote_status env dir = ("Not Cloned", [])) ∧
    (env.isDir dir = true → (runGitIn env dir revParseUpstreamArgs).1 ≠ 0 →
      (Gcl.get_repo_remote_status env dir).1 = "No Remote") ∧
    ((Gcl.get_repo_remote_status env dir).1 = "Fetch Failed" ↔
      env.isDir dir = true ∧ (runGitIn env dir revParseUpstreamArgs).1 = 0 ∧
        (runGitIn env dir fetchQuietArgs).1 ≠ 0) ∧
    (env.isDir dir = true → (runGitIn env dir revParseUpstreamArgs).1 = 0 →
      (runGitIn env dir fetchQuietArgs).1 = 0 →
      0 < countLines (runGitIn env dir logUnpulledArgs).2 →
      (Gcl.get_repo_remote_status env dir).1 =
        toString (countLines (runGitIn env dir logUnpulledArgs).2) ++ " To Pull") ∧
    (env.isDir dir = true → (runGitIn env dir revParseUpstreamArgs).1 = 0 →
      (runGitIn env dir fetchQuietArgs).1 = 0 →
      countLines (runGitIn env dir logUnpulledArgs).2 = 0 →
      (Gcl.get_repo_remote_status env dir).1 = "Up to Date") ∧
    GclV2.get_repo_remote_status env dir true = Gcl.get_repo_remote_status env dir := by
  have hNot : env.isDir dir = false →
      Gcl.get_repo_remote_status env dir = ("Not Cloned", []) := by
    intro h; simp [Gcl.get_repo_remote_status, h]
  have hNR : env.isDir dir = true → (runGitIn env dir revParseUpstreamArgs).1 ≠ 0 →
      (Gcl.get_repo_remote_status env dir).1 = "No Remote" := by
    intro h h1; simp [Gcl.get_repo_remote_status, h, h1]
  have hFF : env.isDir dir = true → (runGitIn env dir revParseUpstreamArgs).1 = 0 →
      (runGitIn env dir fetchQuietArgs).1 ≠ 0 →
      (Gcl.get_repo_remote_status env dir).1 = "Fetch Failed" := by
    intro h h1 h2; simp [Gcl.get_repo_remote_status, h, h1, h2]
  have hTP : env.isDir dir = true → (runGitIn env dir revParseUpstreamArgs).1 = 0 →
      (runGitIn env dir fetchQuietArgs).1 = 0 →
      0 < countLines (runGitIn env dir logUnpulledArgs).2 →
      (Gcl.get_repo_remote_status env dir).1 =
        toString (countLines (runGitIn env dir logUnpulledArgs).2) ++ " To Pull" := by
    intro h h1 h2 h3; simp [Gcl.get_repo_remote_status, h, h1, h2, h3]
  have hUD : env.isDir dir = true → (runGitIn env dir revParseUpstreamArgs).1 = 0 →
      (runGitIn env dir fetchQuietArgs).1 = 0 →
      countLines (runGitIn env dir logUnpulledArgs).2 = 0 →
      (Gcl.get_repo_remote_status env dir).1 = "Up to Date" := by
    intro h h1 h2 h3; simp [Gcl.get_repo_remote_status, h, h1, h2, h3]
  refine ⟨hNot, hNR, ⟨?_, ?_⟩, hTP, hUD, ?_⟩
  · intro hF
    by_cases hd : env.isDir dir = false
    · rw [hNot hd] at hF; exact absurd hF (by decide)
    · have hd' : env.isDir dir = true := by simpa using hd
      by_cases h1 : (runGitIn env dir revParseUpstreamArgs).1 = 0
      · by_cases h2 : (runGitIn env dir fetchQuietArgs).1 = 0
        · by_cases h3 : countLines (runGitIn env dir logUnpulledArgs).2 = 0
          · rw [hUD hd' h1 h2 h3] at hF; exact absurd hF (by decide)
          · rw [hTP hd' h1 h2 (Nat.pos_of_ne_zero h3)] at hF
            exact absurd hF (append_ne_of_getLast_ne _ _ _ 'l' 'd'
              (by decide) (by decide) (by decide))
        · exact ⟨hd', h1, h2⟩
      · rw [hNR hd' h1] at hF; exact absurd hF (by decide)
  · rintro ⟨hd, h1, h2⟩; exact hFF hd h1 h2
  · by_cases hd : env.isDir dir = false
    · simp [Gcl.get_repo_remote_status, GclV2.get_repo_remote_status, hd]
    · have hd' : env.isDir dir = true := by simpa using hd
      by_cases h1 : (runGitIn env dir revParseUpstreamArgs).1 = 0
      · by_cases h2 : (runGitIn env dir fetchQuietArgs).1 = 0
        · simp [Gcl.get_repo_remote_status, GclV2.get_repo_remote_status, hd', h1, h2]
        · simp [Gcl.get_repo_remote_status, GclV2.get_repo_remote_status, hd', h1, h2]
      · simp [Gcl.get_repo_remote_status, GclV2.get_repo_remote_status, hd', h1]

/-- Witness for claim C4 at a concrete environment with no directories. -/
theorem gcl_C4_remote_status_witness :
    Gcl.get_repo_remote_status envNoDir "repo" = ("Not Cloned", []) :=
  (gcl_C4_remote_status envNoDir "repo").1 rfl

namespace Gcl

/-- Embedding of the strategy mapping in `TUI.execute_action`
(src/Git/gcl.py line 770 and src/Git/gcl/gcl.py line 827):
`strategy = 'ours' if self.strategy_selected == 0 else 'theirs'`. -/
def strategy_of_selected (strategy_selected : Int) : String :=
  if strategy_selected = 0 then "ours" else "theirs"

/-- Embedding of the strategy mapping in `run_cli_sync`
(src/Git/gcl.py line 829 and src/Git/gcl/gcl.py line 886):
`git_strategy = 'ours' if strategy == 'local' else 'theirs'`.
The CLI default argument is the string "remote". -/
def strategy_of_cli (strategy : String) : String :=
  if strategy = "local" then "ours" else "theirs"

end Gcl

namespace GclOld

/-- Embedding of the strategy mapping in `process_repositories`
(src/Git/gcl_old.py line 176):
`merge_strategy = 'ours' if strategy == 0 else 'theirs'`. -/
def merge_strategy_of (strategy : Int) : String :=
  if strategy = 0 then "ours" else "theirs"

end GclOld

/-- Claim C5: the merge-strategy selections map LOCAL (index 0 or CLI
argument "local") to the git strategy option "ours" and REMOTE (index 1
or CLI argument "remote", the CLI default) to "theirs", in all three
variants, and every possible input maps to one of exactly these two
strategy option strings. -/
theorem gcl_C5_strategy_mapping :
    Gcl.strategy_of_selected 0 = "ours" ∧ Gcl.strategy_of_selected 1 = "theirs" ∧
    Gcl.strategy_of_cli "local" = "ours" ∧ Gcl.strategy_of_cli "remote" = "theirs" ∧
    GclOld.merge_strategy_of 0 = "ours" ∧ GclOld.merge_strategy_of 1 = "theirs" ∧
    (∀ s : Int, Gcl.strategy_of_selected s = "ours" ∨ Gcl.strategy_of_selected s = "theirs") ∧
    (∀ s : String, Gcl.strategy_of_cli s = "ours" ∨ Gcl.strategy_of_cli s = "theirs") ∧
    (∀ s : Int, GclOld.merge_strategy_of s = "ours" ∨ GclOld.merge_strategy_of s = "theirs") := by
  refine ⟨rfl, rfl, rfl, rfl, rfl, rfl, ?_, ?_, ?_⟩
  · intro s; unfold Gcl.strategy_of_selected; split <;> simp
  · intro s; unfold Gcl.strategy_of_cli; split <;> simp
  · intro s; unfold GclOld.merge_strategy_of; split <;> simp

namespace Rclone

/-- Outcome of the guarded subprocess block in rclone.py: the process
call completed with a return code, or raised
`subprocess.CalledProcessError`, or raised `KeyboardInterrupt`. -/
inductive RunOutcome where
  | completed (returncode : Int)
  | calledProcessError
  | interrupt
deriving DecidableEq

/-- Environment for `bisync_folder`: whether the local folder exists,
the stripped lowercased answer read by `input()` when it does not,
whether the bisync cache directory exists, and the outcome of the one
`subprocess.run` call. -/
structure BisyncEnv where
  localFolderExists : Bool
  createAnswer : String
  bisyncCacheExists : Bool
  outcome : RunOutcome

/-- Embedding of `RcloneManager.bisync_folder` (src/Rclone/rclone.py
lines 314-390).  Returns the boolean result together with the list of
rclone invocations performed (each as its argv list). -/
def bisync_folder (env : BisyncEnv) (remote local_path folder : String)
    (dry_run resync : Bool) : Bool × List (List String) :=
  let local_folder := local_path ++ "/" ++ folder
  let remote_folder :=
    if remote.contains ':' then
      let parts := remote.splitOn ":"
      let remote_name := parts.headD ""
      let remote_path := String.intercalate ":" (parts.drop 1)
      if remote_path ≠ "" then remote_name ++ ":" ++ remote_path ++ "/" ++ folder
      else remote_name ++ ":" ++ folder
    else remote ++ ":" ++ folder
  if env.localFolderExists = false ∧
      ¬(env.createAnswer = "" ∨ env.createAnswer = "y") then
    (false, [])
  else
    let needs_resync := resync || !env.bisyncCacheExists
    let cmd := ["rclone", "bisync", remote_folder, local_folder,
        "--tpslimit", "10", "--drive-skip-gdocs"]
      ++ (if needs_resync then ["--resync"] else [])
      ++ (if dry_run then ["--dry-run"] else [])
      ++ ["--verbose"]
    match env.outcome with
    | .completed rc => (rc == 0, [cmd])
    | .calledProcessError => (false, [cmd])
    | .interrupt => (false, [cmd])

/-- Which branch of `mount_remote` ran: the try block completed
normally, or it raised `subprocess.CalledProcessError`, or it raised
`KeyboardInterrupt`. -/
inductive MountOutcome where
  | normal
  | calledProcessError
  | interrupt
deriving DecidableEq

/-- Environment for `mount_remote`: whether the post-launch
`get_mount_status` verification reports the path mounted, and the
outcome of the guarded block. -/
structure MountEnv where
  isMounted : Bool
  outcome : MountOutcome

/-- Embedding of `RcloneManager.mount_remote` (src/Rclone/rclone.py
lines 98-213) restricted to its observable results: the returned
boolean and whether `save_mount_config` was called.  In daemon and
silent modes, both the verified-mounted branch and the
not-yet-verified branch return True and save the configuration; the
verbose branch returns True without saving; the CalledProcessError
handler returns False and the KeyboardInterrupt handler returns
True. -/
def mount_remote (env : MountEnv) (mode : String) : Bool × Bool :=
  match env.outcome with
  | .calledProcessError => (false, false)
  | .interrupt => (true, false)
  | .normal =>
    if mode = "daemon" then
      if env.isMounted then (true, true) else (true, true)
    else if mode = "silent" then
      if env.isMounted then (true, true) else (true, true)
    else (true, false)

end Rclone

/-- Claim C3: `bisync_folder` invokes rclone bisync at most once, with
no retry; every invocation is an `rclone bisync` command; and it
returns true exactly when that single invocation completed with exit
code 0 (false on nonzero exit, on a caught exception, on keyboard
interrupt, and on the skip path that performs no invocation). -/
theorem rclone_C3_bisync (env : Rclone.BisyncEnv)
    (remote local_path folder : String) (dry_run resync : Bool) :
    (Rclone.bisync_folder env remote local_path folder dry_run resync).2.length ≤ 1 ∧
    (∀ cmd ∈ (Rclone.bisync_folder env remote local_path folder dry_run resync).2,
      cmd.take 2 = ["rclone", "bisync"]) ∧
    ((Rclone.bisync_folder env remote local_path folder dry_run resync).1 = true ↔
      (Rclone.bisync_folder env remote local_path folder dry_run resync).2.length = 1 ∧
        env.outcome = .completed 0) := by
  obtain ⟨lfe, ca, bce, oc⟩ := env
  by_cases hskip : lfe = false ∧ ¬(ca = "" ∨ ca = "y")
  · simp [Rclone.bisync_folder, hskip]
  · cases oc <;>
      simp [Rclone.bisync_folder, hskip, Rclone.RunOutcome.completed.injEq] <;>
      split_ifs <;> simp

/-- Claim C10: in daemon and silent modes `mount_remote` returns True
and saves the mount configuration whenever the guarded block completes
normally, regardless of whether the post-launch verification found the
mountpoint mounted, and a False return can only arise from the
CalledProcessError handler. -/
theorem rclone_C10_mount (env : Rclone.MountEnv) (mode : String)
    (h : mode = "daemon" ∨ mode = "silent") :
    (env.outcome = .normal → Rclone.mount_remote env mode = (true, true)) ∧
    ((Rclone.mount_remote env mode).1 = false →
      env.outcome = .calledProcessError) := by
  obtain ⟨im, oc⟩ := env
  constructor
  · intro hn
    cases oc with
    | normal =>
      rcases h with h | h <;> subst h <;> cases im <;> rfl
    | calledProcessError => exact absurd hn (by simp)
    | interrupt => exact absurd hn (by simp)
  · intro hf
    cases oc with
    | normal =>
      rcases h with h | h <;> subst h <;> cases im <;> simp [Rclone.mount_remote] at hf
    | calledProcessError => rfl
    | interrupt => simp [Rclone.mount_remote] at hf

/-- Witness for claim C10: daemon mode, verification not yet showing
the mount, normal completion: returns True and saves the config. -/
theorem rclone_C10_mount_witness :
    Rclone.mount_remote ⟨false, .normal⟩ "daemon" = (true, true) :=
  (rclone_C10_mount ⟨false, .normal⟩ "daemon" (Or.inl rfl)).1 rfl

/-- The mutable TUI state fields of the `TUI` class shared by
src/Git/gcl.py and src/Git/gcl/gcl.py that `handle_input` reads or
writes (the curses screen handle and the transient status message are
omitted).  Integer-valued fields are Python ints, modelled as `Int`. -/
structure TuiState where
  running : Bool
  repos : List String
  repo_selection : List Bool
  repo_local_status : List String
  repo_remote_status : List String
  workdir_selected : Int
  strategy_selected : Int
  action_selected : Int
  repo_cursor : Int
  repo_scroll_offset : Int
  current_field : Int

/-- `self.total_fields = 5`, set in `TUI.__init__` and never changed. -/
def totalFields : Int := 5

/-- External inputs consumed by a `handle_input` step: the terminal
height returned by `getmaxyx`, the status lists that a refresh pass
would produce (they are read from the filesystem and from git, hence
environment-determined), and the effect of `execute_action` on
`running` (it depends on the prompt answer typed by the user) and on
the local status list it refreshes before returning to the menu. -/
structure TuiEnv where
  termHeight : Int
  refreshedLocal : List String
  refreshedRemote : List String
  runningAfterExecute : Bool
  localAfterExecute : List String

namespace Gcl

/-- Embedding of `TUI.handle_input` (src/Git/gcl.py lines 639-725).
Key codes: q=113, KEY_UP=259, KEY_DOWN=258, TAB=9, SPACE=32,
ENTER=10 or 13, a=97, u=117, k=107, o=111, e=101, s=115, p=112, l=108,
t=116, f=102, n=110, i=105, r=114. -/
def handle_input (env : TuiEnv) (s : TuiState) (key : Int) : TuiState :=
  if key = 113 then { s with running := false }
  else if key = 259 then
    if s.current_field = 3 then
      let c := max 0 (s.repo_cursor - 1)
      { s with
          repo_cursor := c,
          repo_scroll_offset :=
            if c < s.repo_scroll_offset then c else s.repo_scroll_offset }
    else { s with current_field := (s.current_field - 1) % totalFields }
  else if key = 258 then
    if s.current_field = 3 then
      let c := min ((s.repos.length : Int) - 1) (s.repo_cursor + 1)
      let maxVisible := min 14 (env.termHeight - 30)
      { s with
          repo_cursor := c,
          repo_scroll_offset :=
            if c ≥ s.repo_scroll_offset + maxVisible then c - maxVisible + 1
            else s.repo_scroll_offset }
    else { s with current_field := (s.current_field + 1) % totalFields }
  else if key = 9 then { s with current_field := (s.current_field + 1) % totalFields }
  else if key = 32 then
    if s.current_field = 0 then { s with workdir_selected := 1 - s.workdir_selected }
    else if s.current_field = 1 then { s with strategy_selected := 1 - s.strategy_selected }
    else if s.current_field = 2 then { s with action_selected := (s.action_selected + 1) % 7 }
    else if s.current_field = 3 then
      { s with
          repo_selection :=
            s.repo_selection.set s.repo_cursor.toNat
              (!(s.repo_selection.getD s.repo_cursor.toNat false)) }
    else s
  else if key = 10 ∨ key = 13 then
    { s with
        running := env.runningAfterExecute,
        repo_local_status := env.localAfterExecute }
  else if key = 97 then { s with repo_selection := List.replicate s.repos.length true }
  else if key = 117 then { s with repo_selection := List.replicate s.repos.length false }
  else if key = 107 then
    { s with
        repo_selection :=
          (List.range s.repos.length).map
            (fun i => s.repo_local_status.getD i "" != "OK") }
  else if key = 111 then { s with strategy_selected := 0 }
  else if key = 101 then { s with strategy_selected := 1 }
  else if key = 115 then { s with action_selected := 0 }
  else if key = 112 then { s with action_selected := 1 }
  else if key = 108 then { s with action_selected := 2 }
  else if key = 116 then
    { s with
        action_selected := 3,
        repo_local_status := env.refreshedLocal }
  else if key = 102 then
    { s with
        action_selected := 4,
        repo_remote_status := env.refreshedRemote }
  else if key = 110 then { s with action_selected := 5 }
  else if key = 105 then { s with action_selected := 6 }
  else if key = 114 then
    { s with
        repo_local_status := env.refreshedLocal,
        repo_remote_status := env.refreshedRemote }
  else s

end Gcl

namespace GclV2

/-- Embedding of `TUI.handle_input` (src/Git/gcl/gcl.py lines 682-782).
Differs from src/Git/gcl.py in the `k` smart-selection branch and in
the action indices bound to the f, l, p and t shortcuts. -/
def handle_input (env : TuiEnv) (s : TuiState) (key : Int) : TuiState :=
  if key = 113 then { s with running := false }
  else if key = 259 then
    if s.current_field = 3 then
      let c := max 0 (s.repo_cursor - 1)
      { s with
          repo_cursor := c,
          repo_scroll_offset :=
            if c < s.repo_scroll_offset then c else s.repo_scroll_offset }
    else { s with current_field := (s.current_field - 1) % totalFields }
  else if key = 258 then
    if s.current_field = 3 then
      let c := min ((s.repos.length : Int) - 1) (s.repo_cursor + 1)
      let maxVisible := min 14 (env.termHeight - 30)
      { s with
          repo_cursor := c,
          repo_scroll_offset :=
            if c ≥ s.repo_scroll_offset + maxVisible then c - maxVisible + 1
            else s.repo_scroll_offset }
    else { s with current_field := (s.current_field + 1) % totalFields }
  else if key = 9 then { s with current_field := (s.current_field + 1) % totalFields }
  else if key = 32 then
    if s.current_field = 0 then { s with workdir_selected := 1 - s.workdir_selected }
    else if s.current_field = 1 then { s with strategy_selected := 1 - s.strategy_selected }
    else if s.current_field = 2 then { s with action_selected := (s.action_selected + 1) % 7 }
    else if s.current_field = 3 then
      { s with
          repo_selection :=
            s.repo_selection.set s.repo_cursor.toNat
              (!(s.repo_selection.getD s.repo_cursor.toNat false)) }
    else s
  else if key = 10 ∨ key = 13 then
    { s with
        running := env.runningAfterExecute,
        repo_local_status := env.localAfterExecute }
  else if key = 97 then { s with repo_selection := List.replicate s.repos.length true }
  else if key = 117 then { s with repo_selection := List.replicate s.repos.length false }
  else if key = 107 then
    let localNeeds := fun i => s.repo_local_status.getD i "" != "OK"
    let remoteNeeds := fun i =>
      (s.repo_remote_status.getD i "" != "Up to Date") &&
        (s.repo_remote_status.getD i "" != "Not Checked")
    { s with
        repo_selection :=
          (List.range s.repos.length).map (fun i => localNeeds i || remoteNeeds i),
        action_selected :=
          if (List.range s.repos.length).any remoteNeeds then 0 else 3 }
  else if key = 111 then { s with strategy_selected := 0 }
  else if key = 101 then { s with strategy_selected := 1 }
  else if key = 115 then { s with action_selected := 0 }
  else if key = 102 then
    { s with
        action_selected := 1,
        repo_remote_status := env.refreshedRemote }
  else if key = 108 then { s with action_selected := 2 }
  else if key = 112 then { s with action_selected := 3 }
  else if key = 116 then
    { s with
        action_selected := 4,
        repo_local_status := env.refreshedLocal }
  else if key = 110 then { s with action_selected := 5 }
  else if key = 105 then { s with action_selected := 6 }
  else if key = 114 then
    { s with
        repo_local_status := env.refreshedLocal,
        repo_remote_status := env.refreshedRemote }
  else s

end GclV2

/-- The bounds invariant of the TUI state: cursor within the repo list,
field within the five fields, action within the seven actions, the two
binary choices in 0..1. -/
def StateInv (s : TuiState) : Prop :=
  0 ≤ s.repo_cursor ∧ s.repo_cursor ≤ (s.repos.length : Int) - 1 ∧
  0 ≤ s.current_field ∧ s.current_field ≤ totalFields - 1 ∧
  0 ≤ s.action_selected ∧ s.action_selected ≤ 6 ∧
  (s.strategy_selected = 0 ∨ s.strategy_selected = 1) ∧
  (s.workdir_selected = 0 ∨ s.workdir_selected = 1)

/-- A key-handling step of the src/Git/gcl.py TUI preserves the bounds
invariant. -/
theorem Gcl.handle_input_preserves_inv_v1 (env : TuiEnv) (s : TuiState) (key : Int)
    (h : StateInv s) : StateInv (Gcl.handle_input env s key) := by
  obtain ⟨hc0, hc1, hf0, hf1, ha0, ha1, hs, hw⟩ := h
  simp only [totalFields] at hf1
  by_cases h1 : key = 113
  · simp [Gcl.handle_input, h1]
    first
    | (split_ifs <;> simp [StateInv, totalFields] <;> omega)
    | (simp [StateInv, totalFields]; omega)
    | omega
  by_cases h2 : key = 259
  · simp [Gcl.handle_input, h2]
    first
    | (split_ifs <;> simp [StateInv, totalFields] <;> omega)
    | (simp [StateInv, totalFields]; omega)
    | omega
  by_cases h3 : key = 258
  · simp [Gcl.handle_input, h3]
    first
    | (split_ifs <;> simp [StateInv, totalFields] <;> omega)
    | (simp [StateInv, totalFields]; omega)
    | omega
  by_cases h4 : key = 9
  · simp [Gcl.handle_input, h4]
    first
    | (split_ifs <;> simp [StateInv, totalFields] <;> omega)
    | (simp [StateInv, totalFields]; omega)
    | omega
  by_cases h5 : key = 32
  · simp [Gcl.handle_input, h5]
    first
    | (split_ifs <;> simp [StateInv, totalFields] <;> omega)
    | (simp [StateInv, totalFields]; omega)
    | omega
  by_cases h6 : key = 10 ∨ key = 13
  · rcases h6 with h6 | h6 <;>
      simp [Gcl.handle_input, h6] <;>
      first
      | (split_ifs <;> simp [StateInv, totalFields] <;> omega)
      | (simp [StateInv, totalFields]; omega)
      | omega
  by_cases h7 : key = 97
  · simp [Gcl.handle_input, h7]
    first
    | (split_ifs <;> simp [StateInv, totalFields] <;> omega)
    | (simp [StateInv, totalFields]; omega)
    | omega
  by_cases h8 : key = 117
  · simp [Gcl.handle_input, h8]
    first
    | (split_ifs <;> simp [StateInv, totalFields] <;> omega)
    | (simp [StateInv, totalFields]; omega)
    | omega
  by_cases h9 : key = 107
  · simp [Gcl.handle_input, h9]
    first
    | (split_ifs <;> simp [StateInv, totalFields] <;> omega)
    | (simp [StateInv, totalFields]; omega)
    | omega
  by_cases h10 : key = 111
  · simp [Gcl.handle_input, h10]
    first
    | (split_ifs <;> simp [StateInv, totalFields] <;> omega)
    | (simp [StateInv, totalFields]; omega)
    | omega
  by_cases h11 : key = 101
  · simp [Gcl.handle_input, h11]
    first
    | (split_ifs <;> simp [StateInv, totalFields] <;> omega)
    | (simp [StateInv, totalFields]; omega)
    | omega
  by_cases h12 : key = 115
  · simp [Gcl.handle_input, h12]
    first
    | (split_ifs <;> simp [StateInv, totalFields] <;> omega)
    | (simp [StateInv, totalFields]; omega)
    | omega
  by_cases h13 : key = 112
  · simp [Gcl.handle_input, h13]
    first
    | (split_ifs <;> simp [StateInv, totalFields] <;> omega)
    | (simp [StateInv, totalFields]; omega)
    | omega
  by_cases h14 : key = 108
  · simp [Gcl.handle_input, h14]
    first
    | (split_ifs <;> simp [StateInv, totalFields] <;> omega)
    | (simp [StateInv, totalFields]; omega)
    | omega
  by_cases h15 : key = 116
  · simp [Gcl.handle_input, h15]
    first
    | (split_ifs <;> simp [StateInv, totalFields] <;> omega)
    | (simp [StateInv, totalFields]; omega)
    | omega
  by_cases h16 : key = 102
  · simp [Gcl.handle_input, h16]
    first
    | (split_ifs <;> simp [StateInv, totalFields] <;> omega)
    | (simp [StateInv, totalFields]; omega)
    | omega
  by_cases h17 : key = 110
  · simp [Gcl.handle_input, h17]
    first
    | (split_ifs <;> simp [StateInv, totalFields] <;> omega)
    | (simp [StateInv, totalFields]; omega)
    | omega
  by_cases h18 : key = 105
  · simp [Gcl.handle_input, h18]
    first
    | (split_ifs <;> simp [StateInv, totalFields] <;> omega)
    | (simp [StateInv, totalFields]; omega)
    | omega
  by_cases h19 : key = 114
  · simp [Gcl.handle_input, h19]
    first
    | (split_ifs <;> simp [StateInv, totalFields] <;> omega)
    | (simp [StateInv, totalFields]; omega)
    | omega
  simp [Gcl.handle_input, h1, h2, h3, h4, h5, h6, h7, h8, h9, h10, h11, h12, h13, h14, h15, h16, h17, h18, h19]
  exact ⟨hc0, hc1, hf0, hf1, ha0, ha1, hs, hw⟩

/-- A key-handling step of the src/Git/gcl/gcl.py TUI preserves the
bounds invariant. -/
theorem GclV2.handle_input_preserves_inv_v2 (env : TuiEnv) (s : TuiState) (key : Int)
    (h : StateInv s) : StateInv (GclV2.handle_input env s key) := by
  obtain ⟨hc0, hc1, hf0, hf1, ha0, ha1, hs, hw⟩ := h
  simp only [totalFields] at hf1
  by_cases h1 : key = 113
  · simp [GclV2.handle_input, h1]
    first
    | (split_ifs <;> simp [StateInv, totalFields] <;> omega)
    | (simp [StateInv, totalFields]; omega)
    | omega
  by_cases h2 : key = 259
  · simp [GclV2.handle_input, h2]
    first
    | (split_ifs <;> simp [StateInv, totalFields] <;> omega)
    | (simp [StateInv, totalFields]; omega)
    | omega
  by_cases h3 : key = 258
  · simp [GclV2.handle_input, h3]
    first
    | (split_ifs <;> simp [StateInv, totalFields] <;> omega)
    | (simp [StateInv, totalFields]; omega)
    | omega
  by_cases h4 : key = 9
  · simp [GclV2.handle_input, h4]
    first
    | (split_ifs <;> simp [StateInv, totalFields] <;> omega)
    | (simp [StateInv, totalFields]; omega)
    | omega
  by_cases h5 : key = 32
  · simp [GclV2.handle_input, h5]
    first
    | (split_ifs <;> simp [StateInv, totalFields] <;> omega)
    | (simp [StateInv, totalFields]; omega)
    | omega
  by_cases h6 : key = 10 ∨ key = 13
  · rcases h6 with h6 | h6 <;>
      simp [GclV2.handle_input, h6] <;>
      first
      | (split_ifs <;> simp [StateInv, totalFields] <;> omega)
      | (simp [StateInv, totalFields]; omega)
      | omega
  by_cases h7 : key = 97
  · simp [GclV2.handle_input, h7]
    first
    | (split_ifs <;> simp [StateInv, totalFields] <;> omega)
    | (simp [StateInv, totalFields]; omega)
    | omega
  by_cases h8 : key = 117
  · simp [GclV2.handle_input, h8]
    first
    | (split_ifs <;> simp [StateInv, totalFields] <;> omega)
    | (simp [StateInv, totalFields]; omega)
    | omega
  by_cases h9 : key = 107
  · simp [GclV2.handle_input, h9]
    first
    | (split_ifs <;> simp [StateInv, totalFields] <;> omega)
    | (simp [StateInv, totalFields]; omega)
    | omega
  by_cases h10 : key = 111
  · simp [GclV2.handle_input, h10]
    first
    | (split_ifs <;> simp [StateInv, totalFields] <;> omega)
    | (simp [StateInv, totalFields]; omega)
    | omega
  by_cases h11 : key = 101
  · simp [GclV2.handle_input, h11]
    first
    | (split_ifs <;> simp [StateInv, totalFields] <;> omega)
    | (simp [StateInv, totalFields]; omega)
    | omega
  by_cases h12 : key = 115
  · simp [GclV2.handle_input, h12]
    first
    | (split_ifs <;> simp [StateInv, totalFields] <;> omega)
    | (simp [StateInv, totalFields]; omega)
    | omega
  by_cases h13 : key = 112
  · simp [GclV2.handle_input, h13]
    first
    | (split_ifs <;> simp [StateInv, totalFields] <;> omega)
    | (simp [StateInv, totalFields]; omega)
    | omega
  by_cases h14 : key = 108
  · simp [GclV2.handle_input, h14]
    first
    | (split_ifs <;> simp [StateInv, totalFields] <;> omega)
    | (simp [StateInv, totalFields]; omega)
    | omega
  by_cases h15 : key = 116
  · simp [GclV2.handle_input, h15]
    first
    | (split_ifs <;> simp [StateInv, totalFields] <;> omega)
    | (simp [StateInv, totalFields]; omega)
    | omega
  by_cases h16 : key = 102
  · simp [GclV2.handle_input, h16]
    first
    | (split_ifs <;> simp [StateInv, totalFields] <;> omega)
    | (simp [StateInv, totalFields]; omega)
    | omega
  by_cases h17 : key = 110
  · simp [GclV2.handle_input, h17]
    first
    | (split_ifs <;> simp [StateInv, totalFields] <;> omega)
    | (simp [StateInv, totalFields]; omega)
    | omega
  by_cases h18 : key = 105
  · simp [GclV2.handle_input, h18]
    first
    | (split_ifs <;> simp [StateInv, totalFields] <;> omega)
    | (simp [StateInv, totalFields]; omega)
    | omega
  by_cases h19 : key = 114
  · simp [GclV2.handle_input, h19]
    first
    | (split_ifs <;> simp [StateInv, totalFields] <;> omega)
    | (simp [StateInv, totalFields]; omega)
    | omega
  simp [GclV2.handle_input, h1, h2, h3, h4, h5, h6, h7, h8, h9, h10, h11, h12, h13, h14, h15, h16, h17, h18, h19]
  exact ⟨hc0, hc1, hf0, hf1, ha0, ha1, hs, hw⟩

/-- Claim C9: in both TUI variants, `handle_input` preserves the state
bounds invariant for every key and every environment: the cursor stays
within the repo list, the field index within 0..total_fields-1, the
action index within 0..6, and the strategy and workdir choices in
0..1. -/
theorem gcl_C9_handle_input_bounds (env : TuiEnv) (s : TuiState) (key : Int)
    (h : StateInv s) :
    StateInv (Gcl.handle_input env s key) ∧ StateInv (GclV2.handle_input env s key) :=
  ⟨Gcl.handle_input_preserves_inv_v1 env s key h,
    GclV2.handle_input_preserves_inv_v2 env s key h⟩

/-- Claim C6: in both TUI variants, when the current field is the
repository list (field 3), pressing SPACE (key 32) produces the same
next state in both variants, negates exactly the selection flag of the
repository under the cursor, leaves every other selection flag
unchanged, and leaves the cursor, the working-directory choice, the
strategy choice, the action choice, the current field, the running
flag, the repo list and the scroll offset unchanged. -/
theorem gcl_C6_space_toggle (env : TuiEnv) (s : TuiState)
    (h3 : s.current_field = 3) (hc : 0 ≤ s.repo_cursor)
    (hlt : s.repo_cursor.toNat < s.repo_selection.length) :
    Gcl.handle_input env s 32 = GclV2.handle_input env s 32 ∧
    (Gcl.handle_input env s 32).repo_selection.getD s.repo_cursor.toNat false
      = !(s.repo_selection.getD s.repo_cursor.toNat false) ∧
    (∀ j, j ≠ s.repo_cursor.toNat →
      (Gcl.handle_input env s 32).repo_selection.getD j false
        = s.repo_selection.getD j false) ∧
    (Gcl.handle_input env s 32).repo_cursor = s.repo_cursor ∧
    (Gcl.handle_input env s 32).workdir_selected = s.workdir_selected ∧
    (Gcl.handle_input env s 32).strategy_selected = s.strategy_selected ∧
    (Gcl.handle_input env s 32).action_selected = s.action_selected ∧
    (Gcl.handle_input env s 32).current_field = s.current_field ∧
    (Gcl.handle_input env s 32).running = s.running ∧
    (Gcl.handle_input env s 32).repos = s.repos ∧
    (Gcl.handle_input env s 32).repo_scroll_offset = s.repo_scroll_offset := by
  have he : Gcl.handle_input env s 32 =
      { s with
          repo_selection :=
            s.repo_selection.set s.repo_cursor.toNat
              (!(s.repo_selection.getD s.repo_cursor.toNat false)) } := by
    simp [Gcl.handle_input, h3]
  have he2 : GclV2.handle_input env s 32 =
      { s with
          repo_selection :=
            s.repo_selection.set s.repo_cursor.toNat
              (!(s.repo_selection.getD s.repo_cursor.toNat false)) } := by
    simp [GclV2.handle_input, h3]
  refine ⟨he.trans he2.symm, ?_, ?_, by rw [he], by rw [he], by rw [he],
    by rw [he], by rw [he], by rw [he], by rw [he], by rw [he]⟩
  · rw [he]
    simp only [List.getD_eq_getElem?_getD]
    rw [List.getElem?_set_eq_of_lt _ hlt]
    rfl
  · intro j hj
    rw [he]
    simp only [List.getD_eq_getElem?_getD]
    rw [List.getElem?_set_ne (by omega)]

/-- Witness for claim C6 at a concrete state on field 3 with two
repositories, cursor on the first. -/
theorem gcl_C6_space_toggle_witness :
    (Gcl.handle_input
      ⟨24, [], [], true, []⟩
      { running := true, repos := ["a", "b"], repo_selection := [true, false],
        repo_local_status := ["OK", "OK"], repo_remote_status := ["OK", "OK"],
        workdir_selected := 1, strategy_selected := 1, action_selected := 0,
        repo_cursor := 0, repo_scroll_offset := 0, current_field := 3 }
      32).repo_selection.getD (0 : Int).toNat false = !true := by
  have h := gcl_C6_space_toggle
    ⟨24, [], [], true, []⟩
    { running := true, repos := ["a", "b"], repo_selection := [true, false],
      repo_local_status := ["OK", "OK"], repo_remote_status := ["OK", "OK"],
      workdir_selected := 1, strategy_selected := 1, action_selected := 0,
      repo_cursor := 0, repo_scroll_offset := 0, current_field := 3 }
    rfl (by norm_num) (by norm_num)
  exact h.2.1

def cachedDiffArgs : List String := ["diff-index", "--quiet", "--cached", "HEAD", "--"]

namespace Gcl

/-- Embedding of `process_repo` (src/Git/gcl.py lines 131-273) as the
ordered list of git invocations it performs.  The accumulated log
strings are not modelled; the control flow through the subprocess exit
codes is.  A missing repository directory is always cloned, whatever
the action. -/
def process_repo_calls (env : GitEnv)
    (repo_dir repo_url strategy action work_dir : String) : List GitCall :=
  let repo_path := work_dir ++ "/" ++ repo_dir
  if env.isDir repo_path = false then
    [(work_dir, ["clone", repo_url, repo_dir])]
  else if action = "sync" then
    let pre :=
      if (runGitIn env repo_path diffIndexArgs).1 ≠ 0 then
        [(repo_path, diffIndexArgs), (repo_path, ["add", "."]),
          (repo_path, ["commit", "-q", "-m", "Auto-commit before pull"])]
      else [(repo_path, diffIndexArgs)]
    if (runGitIn env repo_path diffIndexArgs).1 ≠ 0 ∧
        (runGitIn env repo_path
          ["commit", "-q", "-m", "Auto-commit before pull"]).1 ≠ 0 then
      pre
    else
      let pullArgs := ["pull", "--no-rebase", "--strategy-option=" ++ strategy]
      if (runGitIn env repo_path pullArgs).1 = 0 then
        pre ++ [(repo_path, pullArgs), (repo_path, ["add", "."]),
            (repo_path, cachedDiffArgs)]
          ++ (if (runGitIn env repo_path cachedDiffArgs).1 ≠ 0 then
                [(repo_path, ["commit", "-q", "-m", "fixes"])] else [])
          ++ [(repo_path, ["push"])]
      else pre ++ [(repo_path, pullArgs)]
  else if action = "push" then
    [(repo_path, ["add", "."]), (repo_path, cachedDiffArgs)]
      ++ (if (runGitIn env repo_path cachedDiffArgs).1 ≠ 0 then
            [(repo_path, ["commit", "-q", "-m", "fixes"])] else [])
      ++ [(repo_path, ["push"])]
  else if action = "pull" then
    [(repo_path, diffIndexArgs)]
      ++ (if (runGitIn env repo_path diffIndexArgs).1 ≠ 0 then
            [(repo_path, ["add", "."]),
              (repo_path, ["commit", "-q", "-m", "Auto-commit before pull"])]
          else [])
      ++ [(repo_path, ["pull", "--no-rebase", "--strategy-option=" ++ strategy])]
  else if action = "status" then
    [(repo_path, diffIndexArgs)]
      ++ (if (runGitIn env repo_path diffIndexArgs).1 ≠ 0 then
            [(repo_path, ["status", "--short"])] else [])
      ++ [(repo_path, logUnpushedArgs)]
      ++ (if countLines (runGitIn env repo_path logUnpushedArgs).2 > 0 then []
          else [(repo_path, revParseUpstreamArgs)])
  else if action = "fetch" then
    [(repo_path, ["fetch"])]
  else if action = "untracked" then
    [(repo_path, ["ls-files", "--others", "--exclude-standard"])]
  else if action = "ignored" then
    [(repo_path, ["ls-files", "--others", "--ignored", "--exclude-standard"])]
  else []

end Gcl

namespace GclV2

/-- Embedding of `process_repo` (src/Git/gcl/gcl.py lines 132-323) as
the ordered list of git invocations it performs.  Differences from the
src/Git/gcl.py version: a missing repository is not cloned for the
read-only actions status, untracked and ignored; the sync action
fetches before pulling and commits with message "Auto-commit before
sync"; all commits omit the -q flag. -/
def process_repo_calls (env : GitEnv)
    (repo_dir repo_url strategy action work_dir : String) : List GitCall :=
  let repo_path := work_dir ++ "/" ++ repo_dir
  if env.isDir repo_path = false then
    if action = "status" ∨ action = "untracked" ∨ action = "ignored" then []
    else [(work_dir, ["clone", repo_url, repo_dir])]
  else if action = "sync" then
    let pre :=
      if (runGitIn env repo_path diffIndexArgs).1 ≠ 0 then
        [(repo_path, diffIndexArgs), (repo_path, ["add", "."]),
          (repo_path, ["commit", "-m", "Auto-commit before sync"])]
      else [(repo_path, diffIndexArgs)]
    if (runGitIn env repo_path diffIndexArgs).1 ≠ 0 ∧
        (runGitIn env repo_path
          ["commit", "-m", "Auto-commit before sync"]).1 ≠ 0 then
      pre
    else if (runGitIn env repo_path ["fetch"]).1 ≠ 0 then
      pre ++ [(repo_path, ["fetch"])]
    else
      let pullArgs := ["pull", "--no-rebase", "--strategy-option=" ++ strategy]
      if (runGitIn env repo_path pullArgs).1 = 0 then
        pre ++ [(repo_path, ["fetch"]), (repo_path, pullArgs),
            (repo_path, ["add", "."]), (repo_path, cachedDiffArgs)]
          ++ (if (runGitIn env repo_path cachedDiffArgs).1 ≠ 0 then
                [(repo_path, ["commit", "-m", "fixes"])] else [])
          ++ [(repo_path, ["push"])]
      else pre ++ [(repo_path, ["fetch"]), (repo_path, pullArgs)]
  else if action = "push" then
    [(repo_path, ["add", "."]), (repo_path, cachedDiffArgs)]
      ++ (if (runGitIn env repo_path cachedDiffArgs).1 ≠ 0 then
            [(repo_path, ["commit", "-m", "fixes"])] else [])
      ++ [(repo_path, ["push"])]
  else if action = "pull" then
    [(repo_path, diffIndexArgs)]
      ++ (if (runGitIn env repo_path diffIndexArgs).1 ≠ 0 then
            [(repo_path, ["add", "."]),
              (repo_path, ["commit", "-m", "Auto-commit before pull"])]
          else [])
      ++ [(repo_path, ["pull", "--no-rebase", "--strategy-option=" ++ strategy])]
  else if action = "status" then
    [(repo_path, diffIndexArgs)]
      ++ (if (runGitIn env repo_path diffIndexArgs).1 ≠ 0 then
            [(repo_path, ["status", "--short"])] else [])
      ++ [(repo_path, logUnpushedArgs)]
      ++ (if countLines (runGitIn env repo_path logUnpushedArgs).2 > 0 then []
          else [(repo_path, revParseUpstreamArgs)])
  else if action = "fetch" then
    [(repo_path, ["fetch"])]
  else if action = "untracked" then
    [(repo_path, ["ls-files", "--others", "--exclude-standard"])]
  else if action = "ignored" then
    [(repo_path, ["ls-files", "--others", "--ignored", "--exclude-standard"])]
  else []

end GclV2

/-- Counterexample to claim C2: with the repository directory missing
and the read-only action "status", the src/Git/gcl.py `process_repo`
issues a clone while the src/Git/gcl/gcl.py variant issues no git
invocation at all, so the two variants are not behaviorally
redundant. -/
theorem gcl_C2_counterexample :
    Gcl.process_repo_calls envNoDir "r" "u" "theirs" "status" "w" ≠
      GclV2.process_repo_calls envNoDir "r" "u" "theirs" "status" "w" := by
  simp [Gcl.process_repo_calls, GclV2.process_repo_calls, envNoDir]

/-- Claim C2 as amended: the two `process_repo` variants issue the same
git invocation sequence when the repository directory exists and the
action is fetch, status, untracked or ignored, and when the directory
is missing and the action is not read-only both issue the same single
clone; they differ when the directory is missing under a read-only
action, and the sync, pull and push sequences differ in the commit
flags and the extra fetch. -/
theorem gcl_C2_amended (env : GitEnv)
    (repo_dir repo_url strategy action work_dir : String) :
    (env.isDir (work_dir ++ "/" ++ repo_dir) = false →
      ¬(action = "status" ∨ action = "untracked" ∨ action = "ignored") →
      Gcl.process_repo_calls env repo_dir repo_url strategy action work_dir
          = [(work_dir, ["clone", repo_url, repo_dir])] ∧
        GclV2.process_repo_calls env repo_dir repo_url strategy action work_dir
          = [(work_dir, ["clone", repo_url, repo_dir])]) ∧
    (env.isDir (work_dir ++ "/" ++ repo_dir) = true →
      (action = "fetch" ∨ action = "status" ∨ action = "untracked" ∨
        action = "ignored") →
      Gcl.process_repo_calls env repo_dir repo_url strategy action work_dir
        = GclV2.process_repo_calls env repo_dir repo_url strategy action work_dir) := by
  constructor
  · intro hd hro
    constructor
    · simp [Gcl.process_repo_calls, hd]
    · simp [GclV2.process_repo_calls, hd, hro]
  · intro hd ha
    rcases ha with ha | ha | ha | ha <;> subst ha <;>
      simp [Gcl.process_repo_calls, GclV2.process_repo_calls, hd]

/-- Witness for the amended claim C2: in the concrete environment with
no directories, both variants clone on a sync of a missing repo. -/
theorem gcl_C2_amended_witness :
    Gcl.process_repo_calls envNoDir "r" "u" "theirs" "sync" "w"
        = [("w", ["clone", "u", "r"])] ∧
      GclV2.process_repo_calls envNoDir "r" "u" "theirs" "sync" "w"
        = [("w", ["clone", "u", "r"])] :=
  (gcl_C2_amended envNoDir "r" "u" "theirs" "sync" "w").1 rfl (by decide)

/-- Witness for claim C9 at a concrete state and the SPACE key. -/
theorem gcl_C9_handle_input_bounds_witness :
    StateInv (Gcl.handle_input ⟨24, [], [], true, []⟩
      { running := true, repos := ["a", "b"], repo_selection := [true, false],
        repo_local_status := ["OK", "OK"], repo_remote_status := ["OK", "OK"],
        workdir_selected := 1, strategy_selected := 1, action_selected := 0,
        repo_cursor := 0, repo_scroll_offset := 0, current_field := 3 } 32) ∧
    StateInv (GclV2.handle_input ⟨24, [], [], true, []⟩
      { running := true, repos := ["a", "b"], repo_selection := [true, false],
        repo_local_status := ["OK", "OK"], repo_remote_status := ["OK", "OK"],
        workdir_selected := 1, strategy_selected := 1, action_selected := 0,
        repo_cursor := 0, repo_scroll_offset := 0, current_field := 3 } 32) :=
  gcl_C9_handle_input_bounds ⟨24, [], [], true, []⟩
    { running := true, repos := ["a", "b"], repo_selection := [true, false],
      repo_local_status := ["OK", "OK"], repo_remote_status := ["OK", "OK"],
      workdir_selected := 1, strategy_selected := 1, action_selected := 0,
      repo_cursor := 0, repo_scroll_offset := 0, current_field := 3 } 32
    (by constructor <;> norm_num [StateInv, totalFields])

/-- Witness for claim C3: a concrete bisync in which the local folder
exists, the cache exists and rclone exits 0 returns true, and its one
invocation is an rclone bisync command. -/
theorem rclone_C3_bisync_witness :
    (Rclone.bisync_folder ⟨true, "", true, .completed 0⟩
      "Gdrive" "/home/x" "notes" false false).1 = true :=
  (rclone_C3_bisync ⟨true, "", true, .completed 0⟩
    "Gdrive" "/home/x" "notes" false false).2.2.mpr ⟨by decide, rfl⟩
